import Mathlib

/- A shallow embedding of the FraudDetection repository (src/db_init.py and
src/app.py): the sqlite schema, the two AFTER INSERT fraud triggers
(trg_flag_high_amount, trg_flag_rapid_txns), and the create / update / delete
route handlers of the Flask app.

Modelling choices, all taken from the source:
- txn_time is stored by the source as text in the canonical format
  YYYY-MM-DD HH:MM:SS, on which lexicographic order agrees with chronological
  order and datetime(x, '-5 minutes') subtracts 300 seconds; it is embedded
  as an integer number of seconds, and the window test
  txn_time >= datetime(t, '-5 minutes') AND txn_time <= t becomes
  t - 300 <= txn_time AND txn_time <= t.
- amount is a sqlite REAL (Python float).  The embedding restricts to
  integral currency amounts (all amounts in the spec and the sample data are
  integral); both Python f-string interpolation and the sqlite REAL-to-text
  cast render an integral amount n as "n.0", which amountStr reproduces.
- fraud_alerts rows carry a surrogate id and a flagged_at timestamp that no
  claim mentions; they are omitted.  Row order of the tables is kept (lists).
-/

inductive TxnType where
  | Credit
  | Debit
  deriving DecidableEq

inductive Status where
  | OK
  | FLAGGED
  deriving DecidableEq

/-- A row of the transactions table (db_init.py:21-32), without the surrogate
integer primary key, which nothing reads. -/
structure Txn where
  transaction_id : String
  user_id : String
  amount : Int
  location : String
  txn_time : Int
  txn_type : TxnType
  status : Status
  deriving DecidableEq

/-- A row of the fraud_alerts table (db_init.py:35-44), without the surrogate
id and flagged_at columns, which no claim mentions. -/
structure Alert where
  transaction_id : String
  user_id : String
  amount : Int
  reason : String
  deriving DecidableEq

/-- The database: both tables, in row order. -/
structure DB where
  transactions : List Txn
  fraud_alerts : List Alert
  deriving DecidableEq

/-- Char-list version of "pat is a prefix of l". -/
def isPre : List Char → List Char → Bool
  | [], _ => true
  | _ :: _, [] => false
  | c :: cs, d :: ds => c == d && isPre cs ds

/-- Char-list version of "pat occurs as a contiguous sublist of l". -/
def subList (pat : List Char) : List Char → Bool
  | [] => isPre pat []
  | d :: rest => isPre pat (d :: rest) || subList pat rest

/-- Substring containment test used to state the "reason text contains ..."
claims. -/
def strContains (s pat : String) : Bool := subList pat.data s.data

/-- Rendering of an integral REAL amount, as produced both by Python
f-string interpolation of a float and by the sqlite REAL-to-text cast. -/
def amountStr (a : Int) : String := toString a ++ ".0"

/-- Reason text of the high-amount rule, identical in the trigger
(db_init.py:105) and in the update handler (app.py:156). -/
def highAmountReason (a : Int) : String :=
  "High amount transaction: ₹" ++ amountStr a ++ " exceeds ₹10,000 limit"

/-- Reason text of the velocity rule, identical in the trigger
(db_init.py:124) and in the update handler (app.py:174). -/
def rapidReason (c : Nat) : String :=
  "Rapid transactions detected: " ++ toString c ++ " transactions within 5 minutes"

/-- An alert produced by the high-amount rule, recognised by its reason text. -/
def isHighAlert (a : Alert) : Bool :=
  isPre "High amount transaction:".data a.reason.data

/-- An alert produced by the velocity rule, recognised by its reason text. -/
def isRapidAlert (a : Alert) : Bool :=
  isPre "Rapid transactions detected:".data a.reason.data

/-- A freshly written transactions row: both INSERT (app.py:68-72) and the
UPDATE statement (app.py:138-142) write status 'OK'. -/
def newRow (tid uid : String) (amount : Int) (loc : String) (t : Int)
    (ty : TxnType) : Txn :=
  ⟨tid, uid, amount, loc, t, ty, Status.OK⟩

/-- UPDATE transactions SET status = st WHERE transaction_id = tid. -/
def setStatus (tid : String) (st : Status) (txs : List Txn) : List Txn :=
  txs.map fun tx => if tx.transaction_id == tid then { tx with status := st } else tx

/-- The WHERE clause of the velocity-rule count: same user, txn_time in the
inclusive window [t - 5 minutes, t]. -/
def inWindow (uid : String) (t : Int) (tx : Txn) : Bool :=
  tx.user_id == uid && decide (t - 300 ≤ tx.txn_time) && decide (tx.txn_time ≤ t)

/-- SELECT COUNT(*) FROM transactions WHERE user_id = uid AND txn_time >=
datetime(t, '-5 minutes') AND txn_time <= t. -/
def countWindow (txs : List Txn) (uid : String) (t : Int) : Nat :=
  txs.countP (inWindow uid t)

/-- SELECT transaction_id FROM transactions WHERE transaction_id = tid,
viewed as an existence test (app.py:62-63). -/
def existsTid (db : DB) (tid : String) : Bool :=
  db.transactions.any fun tx => tx.transaction_id == tid

/-- The create path's failure mode: the flash 'Transaction ID already
exists!' (app.py:64, app.py:79). -/
inductive CreateError where
  | DuplicateTransaction
  deriving DecidableEq

/-- The POST branch of add_transaction (app.py:59-85) after field validation:
the duplicate check, the INSERT with status 'OK', and the two AFTER INSERT
triggers of db_init.py, which run inside the same database transaction as the
INSERT, before the single commit.  trg_flag_high_amount (db_init.py:97-111)
fires first, then trg_flag_rapid_txns (db_init.py:114-140), whose count runs
over the table already containing the new row. -/
def add_transaction (db : DB) (tid uid : String) (amount : Int) (loc : String)
    (t : Int) (ty : TxnType) : Except CreateError DB :=
  if existsTid db tid then
    Except.error CreateError.DuplicateTransaction
  else
    let txs1 := db.transactions ++ [newRow tid uid amount loc t ty]
    let txs2 := if amount > 10000 then setStatus tid Status.FLAGGED txs1 else txs1
    let als2 := if amount > 10000 then
        db.fraud_alerts ++ [⟨tid, uid, amount, highAmountReason amount⟩]
      else db.fraud_alerts
    let c := countWindow txs2 uid t
    let txs3 := if c > 5 then setStatus tid Status.FLAGGED txs2 else txs2
    let als3 := if c > 5 then als2 ++ [⟨tid, uid, amount, rapidReason c⟩] else als2
    Except.ok ⟨txs3, als3⟩

/-- The UPDATE statement of the update route (app.py:138-142): overwrite the
mutable fields and set status 'OK', for every row whose transaction_id
matches (zero rows if the id is absent — the route performs no existence
check on POST). -/
def updatedTxns (db : DB) (tid uid : String) (amount : Int) (loc : String)
    (t : Int) (ty : TxnType) : List Txn :=
  db.transactions.map fun tx =>
    if tx.transaction_id == tid then newRow tid uid amount loc t ty else tx

/-- The committed store right after the first conn.commit() of the update
route (app.py:144): the row is overwritten with status 'OK' and the alert
table is still untouched. -/
def update_commit1 (db : DB) (tid uid : String) (amount : Int) (loc : String)
    (t : Int) (ty : TxnType) : DB :=
  ⟨updatedTxns db tid uid amount loc t ty, db.fraud_alerts⟩

/-- Store contents if a sqlite error aborts the alert phase of the update
route (app.py:148-178): the except branch rolls back to the last committed
state, which is update_commit1 — the already-committed row mutation is not
undone. -/
def update_alert_failure_state (db : DB) (tid uid : String) (amount : Int)
    (loc : String) (t : Int) (ty : TxnType) : DB :=
  update_commit1 db tid uid amount loc t ty

/-- The POST branch of update_transaction (app.py:112-186) after field
validation, end to end on success: the UPDATE with status 'OK' (committed
first), DELETE of the row's alerts (app.py:148), the high-amount re-check
(app.py:151-158), the velocity re-check whose count runs over the
already-updated table (app.py:161-176), and the second commit. -/
def update_transaction (db : DB) (tid uid : String) (amount : Int)
    (loc : String) (t : Int) (ty : TxnType) : DB :=
  let txs1 := updatedTxns db tid uid amount loc t ty
  let als1 := db.fraud_alerts.filter fun a => a.transaction_id != tid
  let txs2 := if amount > 10000 then setStatus tid Status.FLAGGED txs1 else txs1
  let als2 := if amount > 10000 then
      als1 ++ [⟨tid, uid, amount, highAmountReason amount⟩]
    else als1
  let c := countWindow txs2 uid t
  let txs3 := if c > 5 then setStatus tid Status.FLAGGED txs2 else txs2
  let als3 := if c > 5 then als2 ++ [⟨tid, uid, amount, rapidReason c⟩] else als2
  ⟨txs3, als3⟩

/-- The delete route (app.py:202-217): DELETE the alerts referencing the id,
then the transaction, in one committed unit; no existence check. -/
def delete_transaction (db : DB) (tid : String) : DB :=
  ⟨db.transactions.filter fun tx => tx.transaction_id != tid,
   db.fraud_alerts.filter fun a => a.transaction_id != tid⟩

/-- A request against the service, already field-validated. -/
inductive Op where
  | create (tid uid : String) (amount : Int) (loc : String) (t : Int) (ty : TxnType)
  | update (tid uid : String) (amount : Int) (loc : String) (t : Int) (ty : TxnType)
  | delete (tid : String)

/-- State after one request: a rejected create leaves the store unchanged
(app.py:63-65). -/
def applyOp (db : DB) : Op → DB
  | Op.create tid uid amount loc t ty =>
      match add_transaction db tid uid amount loc t ty with
      | Except.error _ => db
      | Except.ok db2 => db2
  | Op.update tid uid amount loc t ty => update_transaction db tid uid amount loc t ty
  | Op.delete tid => delete_transaction db tid

/-- The freshly initialised database (db_init.py without sample data). -/
def dbEmpty : DB := ⟨[], []⟩

/-- State after a request history starting from the fresh database. -/
def run (ops : List Op) : DB := ops.foldl applyOp dbEmpty

/-- Whether a request is an update that targets an id present in the store. -/
def opOk (db : DB) : Op → Bool
  | Op.update tid _ _ _ _ _ => existsTid db tid
  | _ => true

/-- Whether every update in the history targets an id that exists at the
moment the update runs. -/
def goodOps : DB → List Op → Bool
  | _, [] => true
  | db, op :: rest => opOk db op && goodOps (applyOp db op) rest

/-- All alerts referencing a transaction_id. -/
def alertsFor (db : DB) (tid : String) : List Alert :=
  db.fraud_alerts.filter fun a => a.transaction_id == tid

/-- The high-amount alerts referencing a transaction_id. -/
def highAlertsFor (db : DB) (tid : String) : List Alert :=
  db.fraud_alerts.filter fun a => a.transaction_id == tid && isHighAlert a

/-- The velocity alerts referencing a transaction_id. -/
def velocityAlertsFor (db : DB) (tid : String) : List Alert :=
  db.fraud_alerts.filter fun a => a.transaction_id == tid && isRapidAlert a

/-- The stored status of a transaction_id, if present (first matching row). -/
def txnStatus (db : DB) (tid : String) : Option Status :=
  (db.transactions.find? fun tx => tx.transaction_id == tid).map Txn.status

/-- At least one alert references the given transaction_id. -/
abbrev alertExistsFor (db : DB) (tid : String) : Prop :=
  ∃ a ∈ db.fraud_alerts, a.transaction_id = tid

/-- Every stored transaction is FLAGGED exactly when some alert references
it (and OK otherwise) — the derived-status invariant of the spec. -/
abbrev statusConsistent (db : DB) : Prop :=
  ∀ tx ∈ db.transactions, (tx.status = Status.FLAGGED ↔ alertExistsFor db tx.transaction_id)

/-- Every alert references a stored transaction (no dangling alerts). -/
abbrev alertsRef (db : DB) : Prop :=
  ∀ a ∈ db.fraud_alerts, ∃ tx ∈ db.transactions, tx.transaction_id = a.transaction_id

/-- The preserved store invariant: no dangling alerts, and status is derived
from the alert set. -/
def StoreInv (db : DB) : Prop := alertsRef db ∧ statusConsistent db

theorem isPre_append_self (p ys : List Char) : isPre p (p ++ ys) = true := by
  induction p with
  | nil => rfl
  | cons c cs ih => simp [isPre, ih]

theorem isPre_extend (p xs ys : List Char) (h : isPre p xs = true) :
    isPre p (xs ++ ys) = true := by
  induction p generalizing xs with
  | nil => rfl
  | cons c cs ih =>
      cases xs with
      | nil => simp [isPre] at h
      | cons d ds =>
          simp only [isPre, Bool.and_eq_true] at h
          simp only [List.cons_append, isPre, Bool.and_eq_true]
          exact ⟨h.1, ih ds h.2⟩

theorem subList_of_isPre (pat l : List Char) (h : isPre pat l = true) :
    subList pat l = true := by
  cases l with
  | nil => exact h
  | cons d rest => simp [subList, h]

theorem subList_append_left (pat xs rest : List Char) (h : subList pat rest = true) :
    subList pat (xs ++ rest) = true := by
  induction xs with
  | nil => exact h
  | cons x xs ih => simp [subList, ih]

theorem contains_of_data (s pat : String) (xs ys : List Char)
    (h : s.data = xs ++ (pat.data ++ ys)) : strContains s pat = true := by
  unfold strContains
  rw [h]
  exact subList_append_left _ _ _ (subList_of_isPre _ _ (isPre_append_self _ _))

theorem strContains_mid (xs pat ys : String) : strContains (xs ++ pat ++ ys) pat = true := by
  apply contains_of_data _ _ xs.data ys.data
  rw [String.data_append, String.data_append, List.append_assoc]

/-- The high-amount reason text contains the rendered amount. -/
theorem highAmountReason_contains_amount (a : Int) :
    strContains (highAmountReason a) (amountStr a) = true := by
  unfold highAmountReason
  exact strContains_mid _ _ _

/-- The high-amount reason text contains the threshold as rendered by the
source, with a thousands separator: "10,000". -/
theorem highAmountReason_contains_limit (a : Int) :
    strContains (highAmountReason a) "10,000" = true := by
  apply contains_of_data _ _
    ("High amount transaction: ₹".data ++ ((amountStr a).data ++ " exceeds ₹".data))
    " limit".data
  unfold highAmountReason
  rw [String.data_append, String.data_append]
  have h : " exceeds ₹10,000 limit".data =
      " exceeds ₹".data ++ ("10,000".data ++ " limit".data) := by decide
  rw [h]
  simp [List.append_assoc]

/-- The velocity reason text contains the rendered count. -/
theorem rapidReason_contains_count (c : Nat) :
    strContains (rapidReason c) (toString c) = true := by
  unfold rapidReason
  exact strContains_mid _ _ _

theorem isPre_head_ne (c d : Char) (cs ds : List Char) (h : (c == d) = false) :
    isPre (c :: cs) (d :: ds) = false := by
  simp [isPre, h]

theorem isHighAlert_highReason (tid uid : String) (b a : Int) :
    isHighAlert ⟨tid, uid, b, highAmountReason a⟩ = true := by
  show isPre "High amount transaction:".data (highAmountReason a).data = true
  unfold highAmountReason
  rw [String.data_append, String.data_append, List.append_assoc]
  exact isPre_extend _ _ _ (by decide)

theorem isHighAlert_rapidReason (tid uid : String) (b : Int) (c : Nat) :
    isHighAlert ⟨tid, uid, b, rapidReason c⟩ = false := by
  show isPre "High amount transaction:".data (rapidReason c).data = false
  unfold rapidReason
  rw [String.data_append, String.data_append, List.append_assoc]
  have h1 : "High amount transaction:".data = 'H' :: "igh amount transaction:".data := by decide
  have h2 : "Rapid transactions detected: ".data = 'R' :: "apid transactions detected: ".data := by
    decide
  rw [h1, h2, List.cons_append]
  exact isPre_head_ne _ _ _ _ (by decide)

theorem isRapidAlert_rapidReason (tid uid : String) (b : Int) (c : Nat) :
    isRapidAlert ⟨tid, uid, b, rapidReason c⟩ = true := by
  show isPre "Rapid transactions detected:".data (rapidReason c).data = true
  unfold rapidReason
  rw [String.data_append, String.data_append, List.append_assoc]
  exact isPre_extend _ _ _ (by decide)

theorem isRapidAlert_highReason (tid uid : String) (b a : Int) :
    isRapidAlert ⟨tid, uid, b, highAmountReason a⟩ = false := by
  show isPre "Rapid transactions detected:".data (highAmountReason a).data = false
  unfold highAmountReason
  rw [String.data_append, String.data_append, List.append_assoc]
  have h1 : "Rapid transactions detected:".data = 'R' :: "apid transactions detected:".data := by
    decide
  have h2 : "High amount transaction: ₹".data = 'H' :: "igh amount transaction: ₹".data := by
    decide
  rw [h1, h2, List.cons_append]
  exact isPre_head_ne _ _ _ _ (by decide)

theorem countP_congr_eq {α : Type} (l : List α) (p q : α → Bool)
    (h : ∀ a ∈ l, p a = q a) : l.countP p = l.countP q := by
  induction l with
  | nil => rfl
  | cons a l ih =>
      simp only [List.countP_cons, h a (by simp)]
      rw [ih fun x hx => h x (by simp [hx])]

theorem setStatus_setStatus (tid : String) (st : Status) (l : List Txn) :
    setStatus tid st (setStatus tid st l) = setStatus tid st l := by
  unfold setStatus
  rw [List.map_map]
  apply List.map_congr_left
  intro tx _
  by_cases h : tx.transaction_id == tid <;> simp [Function.comp, h]

theorem countWindow_setStatus (l : List Txn) (tid : String) (st : Status)
    (uid : String) (t : Int) :
    countWindow (setStatus tid st l) uid t = countWindow l uid t := by
  unfold countWindow setStatus
  rw [List.countP_map]
  apply countP_congr_eq
  intro tx _
  by_cases h : tx.transaction_id == tid <;> simp [Function.comp, h, inWindow]

theorem setStatus_absent (tid : String) (st : Status) (l : List Txn)
    (h : ∀ tx ∈ l, tx.transaction_id ≠ tid) : setStatus tid st l = l := by
  unfold setStatus
  have h2 : l.map (fun tx => if tx.transaction_id == tid then { tx with status := st } else tx)
      = l.map id := by
    apply List.map_congr_left
    intro tx htx
    simp [beq_eq_false_iff_ne.mpr (h tx htx)]
  rw [h2, List.map_id]

theorem updatedTxns_absent (db : DB) (tid uid : String) (amount : Int)
    (loc : String) (t : Int) (ty : TxnType)
    (h : ∀ tx ∈ db.transactions, tx.transaction_id ≠ tid) :
    updatedTxns db tid uid amount loc t ty = db.transactions := by
  unfold updatedTxns
  have h2 : db.transactions.map
        (fun tx => if tx.transaction_id == tid then newRow tid uid amount loc t ty else tx)
      = db.transactions.map id := by
    apply List.map_congr_left
    intro tx htx
    simp [beq_eq_false_iff_ne.mpr (h tx htx)]
  rw [h2, List.map_id]

/-- Characterisation of the update route's final transactions table. -/
theorem update_transaction_txns (db : DB) (tid uid : String) (amount : Int)
    (loc : String) (t : Int) (ty : TxnType) :
    (update_transaction db tid uid amount loc t ty).transactions =
      if amount > 10000 ∨ countWindow (updatedTxns db tid uid amount loc t ty) uid t > 5
      then setStatus tid Status.FLAGGED (updatedTxns db tid uid amount loc t ty)
      else updatedTxns db tid uid amount loc t ty := by
  by_cases h1 : amount > 10000
  · simp only [update_transaction, if_pos h1, countWindow_setStatus]
    by_cases h2 : countWindow (updatedTxns db tid uid amount loc t ty) uid t > 5
    · simp only [if_pos h2, setStatus_setStatus, if_pos (Or.inl h1)]
    · simp only [if_neg h2, if_pos (Or.inl h1)]
  · simp only [update_transaction, if_neg h1]
    by_cases h2 : countWindow (updatedTxns db tid uid amount loc t ty) uid t > 5
    · simp only [if_pos h2, if_pos (Or.inr h2)]
    · have h3 : ¬ (amount > 10000 ∨ countWindow (updatedTxns db tid uid amount loc t ty) uid t > 5) := by
        intro h
        cases h with
        | inl h => exact h1 h
        | inr h => exact h2 h
      simp only [if_neg h2, if_neg h3]

/-- Characterisation of the update route's final fraud_alerts table. -/
theorem update_transaction_alerts (db : DB) (tid uid : String) (amount : Int)
    (loc : String) (t : Int) (ty : TxnType) :
    (update_transaction db tid uid amount loc t ty).fraud_alerts =
      (db.fraud_alerts.filter fun a => a.transaction_id != tid)
      ++ (if amount > 10000 then [⟨tid, uid, amount, highAmountReason amount⟩] else [])
      ++ (if countWindow (updatedTxns db tid uid amount loc t ty) uid t > 5
          then [⟨tid, uid, amount,
                 rapidReason (countWindow (updatedTxns db tid uid amount loc t ty) uid t)⟩]
          else []) := by
  by_cases h1 : amount > 10000
  · simp only [update_transaction, if_pos h1, countWindow_setStatus]
    by_cases h2 : countWindow (updatedTxns db tid uid amount loc t ty) uid t > 5
    · simp only [if_pos h2, List.append_assoc]
    · simp only [if_neg h2, List.append_nil]
  · simp only [update_transaction, if_neg h1, List.append_nil]
    by_cases h2 : countWindow (updatedTxns db tid uid amount loc t ty) uid t > 5
    · simp only [if_pos h2]
    · simp only [if_neg h2, List.append_nil]

/-- A create with a duplicate transaction_id is rejected outright. -/
theorem add_transaction_dup (db : DB) (tid uid : String) (amount : Int)
    (loc : String) (t : Int) (ty : TxnType) (hex : existsTid db tid = true) :
    add_transaction db tid uid amount loc t ty =
      Except.error CreateError.DuplicateTransaction := by
  simp [add_transaction, hex]

/-- Characterisation of a successful create: the new row is appended, the
two triggers fire on it, the velocity count runs over the table that already
contains the new row. -/
theorem add_transaction_eq (db : DB) (tid uid : String) (amount : Int)
    (loc : String) (t : Int) (ty : TxnType) (hex : existsTid db tid = false) :
    add_transaction db tid uid amount loc t ty = Except.ok
      ⟨(if amount > 10000 ∨
            countWindow (db.transactions ++ [newRow tid uid amount loc t ty]) uid t > 5
        then setStatus tid Status.FLAGGED (db.transactions ++ [newRow tid uid amount loc t ty])
        else db.transactions ++ [newRow tid uid amount loc t ty]),
       db.fraud_alerts
       ++ (if amount > 10000 then [⟨tid, uid, amount, highAmountReason amount⟩] else [])
       ++ (if countWindow (db.transactions ++ [newRow tid uid amount loc t ty]) uid t > 5
           then [⟨tid, uid, amount,
                  rapidReason (countWindow (db.transactions ++ [newRow tid uid amount loc t ty]) uid t)⟩]
           else [])⟩ := by
  by_cases h1 : amount > 10000
  · simp only [add_transaction, hex, Bool.false_eq_true, if_false, if_pos h1,
      countWindow_setStatus]
    by_cases h2 : countWindow (db.transactions ++ [newRow tid uid amount loc t ty]) uid t > 5
    · simp only [if_pos h2, setStatus_setStatus, if_pos (Or.inl h1), List.append_assoc]
    · simp only [if_neg h2, if_pos (Or.inl h1), List.append_nil]
  · simp only [add_transaction, hex, Bool.false_eq_true, if_false, if_neg h1, List.append_nil]
    by_cases h2 : countWindow (db.transactions ++ [newRow tid uid amount loc t ty]) uid t > 5
    · simp only [if_pos h2, if_pos (Or.inr h2)]
    · have h3 : ¬ (amount > 10000 ∨
          countWindow (db.transactions ++ [newRow tid uid amount loc t ty]) uid t > 5) := by
        intro h
        cases h with
        | inl h => exact h1 h
        | inr h => exact h2 h
      simp only [if_neg h2, if_neg h3, List.append_nil]

/-- Inversion of a successful create. -/
theorem add_transaction_ok_inv (db db2 : DB) (tid uid : String) (amount : Int)
    (loc : String) (t : Int) (ty : TxnType)
    (hok : add_transaction db tid uid amount loc t ty = Except.ok db2) :
    existsTid db tid = false ∧ db2 =
      ⟨(if amount > 10000 ∨
            countWindow (db.transactions ++ [newRow tid uid amount loc t ty]) uid t > 5
        then setStatus tid Status.FLAGGED (db.transactions ++ [newRow tid uid amount loc t ty])
        else db.transactions ++ [newRow tid uid amount loc t ty]),
       db.fraud_alerts
       ++ (if amount > 10000 then [⟨tid, uid, amount, highAmountReason amount⟩] else [])
       ++ (if countWindow (db.transactions ++ [newRow tid uid amount loc t ty]) uid t > 5
           then [⟨tid, uid, amount,
                  rapidReason (countWindow (db.transactions ++ [newRow tid uid amount loc t ty]) uid t)⟩]
           else [])⟩ := by
  by_cases hex : existsTid db tid
  · rw [add_transaction_dup db tid uid amount loc t ty hex] at hok
    simp at hok
  · have hex2 : existsTid db tid = false := by simpa using hex
    rw [add_transaction_eq db tid uid amount loc t ty hex2] at hok
    simp only [Except.ok.injEq] at hok
    exact ⟨hex2, hok.symm⟩

theorem find?_append_right {α : Type} (p : α → Bool) (l1 l2 : List α)
    (h : ∀ x ∈ l1, p x = false) : (l1 ++ l2).find? p = l2.find? p := by
  induction l1 with
  | nil => rfl
  | cons a l ih =>
      simp only [List.cons_append, List.find?_cons]
      rw [h a (by simp)]
      exact ih fun x hx => h x (by simp [hx])

theorem find?_cons_pos {α : Type} (p : α → Bool) (a : α) (l : List α) (h : p a = true) :
    (a :: l).find? p = some a := by
  simp [List.find?_cons, h]

theorem find?_cons_neg {α : Type} (p : α → Bool) (a : α) (l : List α) (h : p a = false) :
    (a :: l).find? p = l.find? p := by
  simp [List.find?_cons, h]

theorem find?_replace_aux (l : List Txn) (tid uid : String) (amount : Int)
    (loc : String) (t : Int) (ty : TxnType)
    (h : l.any (fun tx => tx.transaction_id == tid) = true) :
    (l.map fun tx => if tx.transaction_id == tid then newRow tid uid amount loc t ty else tx).find?
        (fun tx => tx.transaction_id == tid) = some (newRow tid uid amount loc t ty) := by
  induction l with
  | nil => simp at h
  | cons a l ih =>
      by_cases ha : (a.transaction_id == tid) = true
      · simp only [List.map_cons, if_pos ha]
        apply List.find?_cons_of_pos
        simp [newRow]
      · simp only [List.any_cons, Bool.or_eq_true] at h
        have h2 : l.any (fun tx => tx.transaction_id == tid) = true := by
          cases h with
          | inl h => exact absurd h ha
          | inr h => exact h
        have ha2 : (a.transaction_id == tid) = false := by simpa using ha
        simp only [List.map_cons, if_neg ha]
        rw [find?_cons_neg (fun tx : Txn => tx.transaction_id == tid) a _ ha2]
        exact ih h2

theorem find?_updatedTxns (db : DB) (tid uid : String) (amount : Int)
    (loc : String) (t : Int) (ty : TxnType) (hex : existsTid db tid = true) :
    (updatedTxns db tid uid amount loc t ty).find? (fun tx => tx.transaction_id == tid)
      = some (newRow tid uid amount loc t ty) := by
  unfold updatedTxns
  exact find?_replace_aux db.transactions tid uid amount loc t ty hex

theorem find?_setStatus (l : List Txn) (tid : String) (st : Status) :
    (setStatus tid st l).find? (fun tx => tx.transaction_id == tid) =
      (l.find? (fun tx => tx.transaction_id == tid)).map (fun tx => { tx with status := st }) := by
  induction l with
  | nil => rfl
  | cons a l ih =>
      by_cases ha : (a.transaction_id == tid) = true
      · have ha2 : (({ a with status := st } : Txn).transaction_id == tid) = true := by
          simpa using ha
        simp only [setStatus, List.map_cons, if_pos ha]
        rw [find?_cons_pos (fun tx : Txn => tx.transaction_id == tid) _ _ ha2,
          find?_cons_pos (fun tx : Txn => tx.transaction_id == tid) a _ ha]
        rfl
      · have ha2 : (a.transaction_id == tid) = false := by simpa using ha
        simp only [setStatus, List.map_cons, if_neg ha]
        rw [find?_cons_neg (fun tx : Txn => tx.transaction_id == tid) a _ ha2,
          find?_cons_neg (fun tx : Txn => tx.transaction_id == tid) a _ ha2]
        simpa only [setStatus] using ih

/-- Status of the updated row after a successful update that fired at least
one rule. -/
theorem txnStatus_update_flagged (db : DB) (tid uid : String) (amount : Int)
    (loc : String) (t : Int) (ty : TxnType) (hex : existsTid db tid = true)
    (hflag : amount > 10000 ∨ countWindow (updatedTxns db tid uid amount loc t ty) uid t > 5) :
    txnStatus (update_transaction db tid uid amount loc t ty) tid = some Status.FLAGGED := by
  unfold txnStatus
  rw [update_transaction_txns, if_pos hflag, find?_setStatus,
    find?_updatedTxns db tid uid amount loc t ty hex]
  rfl

/-- Status of the updated row after a successful update that fired no rule. -/
theorem txnStatus_update_ok (db : DB) (tid uid : String) (amount : Int)
    (loc : String) (t : Int) (ty : TxnType) (hex : existsTid db tid = true)
    (hflag : ¬ (amount > 10000 ∨ countWindow (updatedTxns db tid uid amount loc t ty) uid t > 5)) :
    txnStatus (update_transaction db tid uid amount loc t ty) tid = some Status.OK := by
  unfold txnStatus
  rw [update_transaction_txns, if_neg hflag,
    find?_updatedTxns db tid uid amount loc t ty hex]
  rfl

theorem filter_ne_then_eq (l : List Alert) (tid : String) (p : Alert → Bool) :
    ((l.filter fun a => a.transaction_id != tid).filter
        fun a => a.transaction_id == tid && p a) = [] := by
  rw [List.filter_filter]
  apply List.filter_eq_nil_iff.mpr
  intro a _
  by_cases h : a.transaction_id = tid <;> simp [h]

theorem filter_ne_then_beq (l : List Alert) (tid : String) :
    ((l.filter fun a => a.transaction_id != tid).filter
        fun a => a.transaction_id == tid) = [] := by
  rw [List.filter_filter]
  apply List.filter_eq_nil_iff.mpr
  intro a _
  by_cases h : a.transaction_id = tid <;> simp [h]

/-- Alerts referencing the updated id after the update route: exactly the
freshly produced ones. -/
theorem update_alertsFor (db : DB) (tid uid : String) (amount : Int)
    (loc : String) (t : Int) (ty : TxnType) :
    alertsFor (update_transaction db tid uid amount loc t ty) tid =
      (if amount > 10000 then [⟨tid, uid, amount, highAmountReason amount⟩] else [])
      ++ (if countWindow (updatedTxns db tid uid amount loc t ty) uid t > 5
          then [⟨tid, uid, amount,
                 rapidReason (countWindow (updatedTxns db tid uid amount loc t ty) uid t)⟩]
          else []) := by
  unfold alertsFor
  rw [update_transaction_alerts, List.filter_append, List.filter_append, filter_ne_then_beq]
  by_cases h1 : amount > 10000 <;>
    by_cases h2 : countWindow (updatedTxns db tid uid amount loc t ty) uid t > 5 <;>
    simp [h1, h2]

/-- High-amount alerts referencing the updated id after the update route. -/
theorem update_highAlertsFor (db : DB) (tid uid : String) (amount : Int)
    (loc : String) (t : Int) (ty : TxnType) :
    highAlertsFor (update_transaction db tid uid amount loc t ty) tid =
      if amount > 10000 then [⟨tid, uid, amount, highAmountReason amount⟩] else [] := by
  unfold highAlertsFor
  rw [update_transaction_alerts, List.filter_append, List.filter_append, filter_ne_then_eq]
  by_cases h1 : amount > 10000 <;>
    by_cases h2 : countWindow (updatedTxns db tid uid amount loc t ty) uid t > 5 <;>
    simp [h1, h2, isHighAlert_highReason, isHighAlert_rapidReason]

/-- Velocity alerts referencing the updated id after the update route. -/
theorem update_velocityAlertsFor (db : DB) (tid uid : String) (amount : Int)
    (loc : String) (t : Int) (ty : TxnType) :
    velocityAlertsFor (update_transaction db tid uid amount loc t ty) tid =
      if countWindow (updatedTxns db tid uid amount loc t ty) uid t > 5
      then [⟨tid, uid, amount,
             rapidReason (countWindow (updatedTxns db tid uid amount loc t ty) uid t)⟩]
      else [] := by
  unfold velocityAlertsFor
  rw [update_transaction_alerts, List.filter_append, List.filter_append, filter_ne_then_eq]
  by_cases h1 : amount > 10000 <;>
    by_cases h2 : countWindow (updatedTxns db tid uid amount loc t ty) uid t > 5 <;>
    simp [h1, h2, isRapidAlert_highReason, isRapidAlert_rapidReason]

theorem setStatus_append (tid : String) (st : Status) (l1 l2 : List Txn) :
    setStatus tid st (l1 ++ l2) = setStatus tid st l1 ++ setStatus tid st l2 := by
  unfold setStatus
  exact List.map_append _ _ _

/-- The update route rewrites the matching rows to the submitted values (with
the derived status) and leaves every other row untouched. -/
theorem update_txns_as_map (db : DB) (tid uid : String) (amount : Int)
    (loc : String) (t : Int) (ty : TxnType) :
    (update_transaction db tid uid amount loc t ty).transactions =
      db.transactions.map (fun tx =>
        if tx.transaction_id == tid then
          (if amount > 10000 ∨ countWindow (updatedTxns db tid uid amount loc t ty) uid t > 5
           then { newRow tid uid amount loc t ty with status := Status.FLAGGED }
           else newRow tid uid amount loc t ty)
        else tx) := by
  rw [update_transaction_txns]
  by_cases hflag : amount > 10000 ∨ countWindow (updatedTxns db tid uid amount loc t ty) uid t > 5
  · rw [if_pos hflag]
    have hmap : (fun tx : Txn =>
        if tx.transaction_id == tid then
          (if amount > 10000 ∨ countWindow (updatedTxns db tid uid amount loc t ty) uid t > 5
           then { newRow tid uid amount loc t ty with status := Status.FLAGGED }
           else newRow tid uid amount loc t ty)
        else tx) = (fun tx : Txn =>
        if tx.transaction_id == tid then
          { newRow tid uid amount loc t ty with status := Status.FLAGGED }
        else tx) := by
      funext tx
      rw [if_pos hflag]
    rw [hmap]
    unfold setStatus updatedTxns
    rw [List.map_map]
    apply List.map_congr_left
    intro tx _
    by_cases h : (tx.transaction_id == tid) = true
    · simp [Function.comp, h, newRow]
    · simp [Function.comp, h]
  · rw [if_neg hflag]
    have hmap : (fun tx : Txn =>
        if tx.transaction_id == tid then
          (if amount > 10000 ∨ countWindow (updatedTxns db tid uid amount loc t ty) uid t > 5
           then { newRow tid uid amount loc t ty with status := Status.FLAGGED }
           else newRow tid uid amount loc t ty)
        else tx) = (fun tx : Txn =>
        if tx.transaction_id == tid then newRow tid uid amount loc t ty else tx) := by
      funext tx
      rw [if_neg hflag]
    rw [hmap]
    rfl

/-- A successful create appends exactly one row, carrying the derived status. -/
theorem add_txns_form (db : DB) (tid uid : String) (amount : Int) (loc : String)
    (t : Int) (ty : TxnType)
    (hfresh : ∀ tx ∈ db.transactions, tx.transaction_id ≠ tid) :
    (if amount > 10000 ∨
          countWindow (db.transactions ++ [newRow tid uid amount loc t ty]) uid t > 5
     then setStatus tid Status.FLAGGED (db.transactions ++ [newRow tid uid amount loc t ty])
     else db.transactions ++ [newRow tid uid amount loc t ty]) =
    db.transactions ++
      [if amount > 10000 ∨
            countWindow (db.transactions ++ [newRow tid uid amount loc t ty]) uid t > 5
       then { newRow tid uid amount loc t ty with status := Status.FLAGGED }
       else newRow tid uid amount loc t ty] := by
  by_cases hflag : amount > 10000 ∨
      countWindow (db.transactions ++ [newRow tid uid amount loc t ty]) uid t > 5
  · rw [if_pos hflag, if_pos hflag, setStatus_append, setStatus_absent tid _ _ hfresh]
    congr 1
    simp [setStatus, newRow]
  · rw [if_neg hflag, if_neg hflag]

/-- The store invariant is preserved by the update route when the target id
exists. -/
theorem update_preserves (db : DB) (tid uid : String) (amount : Int)
    (loc : String) (t : Int) (ty : TxnType)
    (hInv : StoreInv db) (hex : existsTid db tid = true) :
    StoreInv (update_transaction db tid uid amount loc t ty) := by
  obtain ⟨href, hcons⟩ := hInv
  have htxns := update_txns_as_map db tid uid amount loc t ty
  have halerts := update_transaction_alerts db tid uid amount loc t ty
  obtain ⟨tr, htr, htrid⟩ : ∃ tx ∈ db.transactions, tx.transaction_id = tid := by
    obtain ⟨tx, htx, hid⟩ := List.any_eq_true.mp hex
    exact ⟨tx, htx, by simpa using hid⟩
  -- the produced alert lists
  have hmemF : ∀ a ∈ (db.fraud_alerts.filter fun x => x.transaction_id != tid),
      a ∈ db.fraud_alerts ∧ a.transaction_id ≠ tid := by
    intro a ha
    rw [List.mem_filter] at ha
    exact ⟨ha.1, bne_iff_ne.mp ha.2⟩
  -- alert existence at the updated id
  have hexist_tid : alertExistsFor (update_transaction db tid uid amount loc t ty) tid ↔
      (amount > 10000 ∨ countWindow (updatedTxns db tid uid amount loc t ty) uid t > 5) := by
    constructor
    · rintro ⟨a, ha, haid⟩
      rw [halerts] at ha
      rcases List.mem_append.mp ha with ha2 | ha2
      · rcases List.mem_append.mp ha2 with ha3 | ha3
        · exact absurd haid (hmemF a ha3).2
        · by_cases h1 : amount > 10000
          · exact Or.inl h1
          · rw [if_neg h1] at ha3
            simp at ha3
      · by_cases h2 : countWindow (updatedTxns db tid uid amount loc t ty) uid t > 5
        · exact Or.inr h2
        · rw [if_neg h2] at ha2
          simp at ha2
    · intro hflag
      rcases hflag with h1 | h2
      · refine ⟨⟨tid, uid, amount, highAmountReason amount⟩, ?_, rfl⟩
        rw [halerts]
        apply List.mem_append.mpr (Or.inl _)
        apply List.mem_append.mpr (Or.inr _)
        rw [if_pos h1]
        simp
      · refine ⟨⟨tid, uid, amount,
          rapidReason (countWindow (updatedTxns db tid uid amount loc t ty) uid t)⟩, ?_, rfl⟩
        rw [halerts]
        apply List.mem_append.mpr (Or.inr _)
        rw [if_pos h2]
        simp
  -- alert existence at other ids is unchanged
  have hexist_other : ∀ s : String, s ≠ tid →
      (alertExistsFor (update_transaction db tid uid amount loc t ty) s ↔ alertExistsFor db s) := by
    intro s hs
    constructor
    · rintro ⟨a, ha, haid⟩
      rw [halerts] at ha
      rcases List.mem_append.mp ha with ha2 | ha2
      · rcases List.mem_append.mp ha2 with ha3 | ha3
        · exact ⟨a, (hmemF a ha3).1, haid⟩
        · by_cases h1 : amount > 10000
          · rw [if_pos h1] at ha3
            rw [List.mem_singleton] at ha3
            subst ha3
            exact absurd haid.symm hs
          · rw [if_neg h1] at ha3
            simp at ha3
      · by_cases h2 : countWindow (updatedTxns db tid uid amount loc t ty) uid t > 5
        · rw [if_pos h2] at ha2
          rw [List.mem_singleton] at ha2
          subst ha2
          exact absurd haid.symm hs
        · rw [if_neg h2] at ha2
          simp at ha2
    · rintro ⟨a, ha, haid⟩
      refine ⟨a, ?_, haid⟩
      rw [halerts]
      apply List.mem_append.mpr (Or.inl _)
      apply List.mem_append.mpr (Or.inl _)
      rw [List.mem_filter]
      refine ⟨ha, bne_iff_ne.mpr ?_⟩
      rw [haid]
      exact hs
  constructor
  · -- alertsRef
    intro a ha
    rw [halerts] at ha
    rcases List.mem_append.mp ha with ha2 | ha2
    · rcases List.mem_append.mp ha2 with ha3 | ha3
      · obtain ⟨haold, hane⟩ := hmemF a ha3
        obtain ⟨tx, htx, hid⟩ := href a haold
        refine ⟨(if tx.transaction_id == tid then
            (if amount > 10000 ∨ countWindow (updatedTxns db tid uid amount loc t ty) uid t > 5
             then { newRow tid uid amount loc t ty with status := Status.FLAGGED }
             else newRow tid uid amount loc t ty)
          else tx), ?_, ?_⟩
        · rw [htxns]
          exact List.mem_map_of_mem _ htx
        · have hne : (tx.transaction_id == tid) = false := by
            apply beq_eq_false_iff_ne.mpr
            rw [hid]
            exact fun hcontra => hane hcontra
          rw [hne]
          simp only [Bool.false_eq_true, if_false]
          exact hid
      · -- high alert: references the updated row
        refine ⟨(if tr.transaction_id == tid then
            (if amount > 10000 ∨ countWindow (updatedTxns db tid uid amount loc t ty) uid t > 5
             then { newRow tid uid amount loc t ty with status := Status.FLAGGED }
             else newRow tid uid amount loc t ty)
          else tr), ?_, ?_⟩
        · rw [htxns]
          exact List.mem_map_of_mem _ htr
        · have hb : ((tr.transaction_id == tid) = true) := by simpa using htrid
          rw [if_pos hb]
          by_cases h1 : amount > 10000
          · rw [if_pos h1] at ha3
            rw [List.mem_singleton] at ha3
            subst ha3
            by_cases hflag : amount > 10000 ∨
                countWindow (updatedTxns db tid uid amount loc t ty) uid t > 5 <;>
              simp [hflag, newRow]
          · rw [if_neg h1] at ha3
            simp at ha3
    · refine ⟨(if tr.transaction_id == tid then
          (if amount > 10000 ∨ countWindow (updatedTxns db tid uid amount loc t ty) uid t > 5
           then { newRow tid uid amount loc t ty with status := Status.FLAGGED }
           else newRow tid uid amount loc t ty)
        else tr), ?_, ?_⟩
      · rw [htxns]
        exact List.mem_map_of_mem _ htr
      · have hb : ((tr.transaction_id == tid) = true) := by simpa using htrid
        rw [if_pos hb]
        by_cases h2 : countWindow (updatedTxns db tid uid amount loc t ty) uid t > 5
        · rw [if_pos h2] at ha2
          rw [List.mem_singleton] at ha2
          subst ha2
          by_cases hflag : amount > 10000 ∨
              countWindow (updatedTxns db tid uid amount loc t ty) uid t > 5 <;>
            simp [hflag, newRow]
        · rw [if_neg h2] at ha2
          simp at ha2
  · -- statusConsistent
    intro tx2 htx2
    rw [htxns] at htx2
    obtain ⟨tx, htx, heq⟩ := List.mem_map.mp htx2
    by_cases h : (tx.transaction_id == tid) = true
    · rw [if_pos h] at heq
      by_cases hflag : amount > 10000 ∨
          countWindow (updatedTxns db tid uid amount loc t ty) uid t > 5
      · rw [if_pos hflag] at heq
        subst heq
        have hid : ({ newRow tid uid amount loc t ty with
            status := Status.FLAGGED } : Txn).transaction_id = tid := rfl
        rw [hid, hexist_tid]
        constructor
        · intro _
          exact hflag
        · intro _
          rfl
      · rw [if_neg hflag] at heq
        subst heq
        have hid : (newRow tid uid amount loc t ty).transaction_id = tid := rfl
        rw [hid, hexist_tid]
        constructor
        · intro hcontra
          exact absurd hcontra (by simp [newRow])
        · intro hcontra
          exact absurd hcontra hflag
    · rw [if_neg h] at heq
      subst heq
      have hne : tx.transaction_id ≠ tid := by
        intro hcontra
        rw [hcontra] at h
        simp at h
      rw [hexist_other tx.transaction_id hne]
      exact hcons tx htx

/-- The store invariant is preserved by a successful create. -/
theorem add_preserves (db db2 : DB) (tid uid : String) (amount : Int)
    (loc : String) (t : Int) (ty : TxnType)
    (hInv : StoreInv db)
    (hok : add_transaction db tid uid amount loc t ty = Except.ok db2) :
    StoreInv db2 := by
  obtain ⟨href, hcons⟩ := hInv
  obtain ⟨hex, hdb2⟩ := add_transaction_ok_inv db db2 tid uid amount loc t ty hok
  have hfresh : ∀ tx ∈ db.transactions, tx.transaction_id ≠ tid := by
    simpa [existsTid] using hex
  have halfresh : ∀ a ∈ db.fraud_alerts, a.transaction_id ≠ tid := by
    intro a ha hcontra
    obtain ⟨tx, htx, hid⟩ := href a ha
    exact hfresh tx htx (by rw [hid, hcontra])
  subst hdb2
  rw [add_txns_form db tid uid amount loc t ty hfresh]
  have hrowid : (if amount > 10000 ∨
        countWindow (db.transactions ++ [newRow tid uid amount loc t ty]) uid t > 5
      then { newRow tid uid amount loc t ty with status := Status.FLAGGED }
      else newRow tid uid amount loc t ty).transaction_id = tid := by
    by_cases hflag : amount > 10000 ∨
        countWindow (db.transactions ++ [newRow tid uid amount loc t ty]) uid t > 5
    · rw [if_pos hflag]
      rfl
    · rw [if_neg hflag]
      rfl
  constructor
  · -- alertsRef
    intro a ha
    rcases List.mem_append.mp ha with ha2 | ha2
    · rcases List.mem_append.mp ha2 with ha3 | ha3
      · obtain ⟨tx, htx, hid⟩ := href a ha3
        exact ⟨tx, List.mem_append.mpr (Or.inl htx), hid⟩
      · refine ⟨_, List.mem_append.mpr (Or.inr (List.mem_singleton.mpr rfl)), ?_⟩
        rw [hrowid]
        by_cases h1 : amount > 10000
        · rw [if_pos h1] at ha3
          rw [List.mem_singleton] at ha3
          subst ha3
          rfl
        · rw [if_neg h1] at ha3
          simp at ha3
    · refine ⟨_, List.mem_append.mpr (Or.inr (List.mem_singleton.mpr rfl)), ?_⟩
      rw [hrowid]
      by_cases h2 : countWindow (db.transactions ++ [newRow tid uid amount loc t ty]) uid t > 5
      · rw [if_pos h2] at ha2
        rw [List.mem_singleton] at ha2
        subst ha2
        rfl
      · rw [if_neg h2] at ha2
        simp at ha2
  · -- statusConsistent
    intro tx2 htx2
    rcases List.mem_append.mp htx2 with htxo | htxn
    · -- an old row: its alert set is unchanged
      have hne : tx2.transaction_id ≠ tid := hfresh tx2 htxo
      rw [hcons tx2 htxo]
      constructor
      · rintro ⟨a, ha, haid⟩
        exact ⟨a, List.mem_append.mpr (Or.inl (List.mem_append.mpr (Or.inl ha))), haid⟩
      · rintro ⟨a, ha, haid⟩
        rcases List.mem_append.mp ha with ha2 | ha2
        · rcases List.mem_append.mp ha2 with ha3 | ha3
          · exact ⟨a, ha3, haid⟩
          · by_cases h1 : amount > 10000
            · rw [if_pos h1] at ha3
              rw [List.mem_singleton] at ha3
              subst ha3
              exact absurd haid.symm hne
            · rw [if_neg h1] at ha3
              simp at ha3
        · by_cases h2 : countWindow
              (db.transactions ++ [newRow tid uid amount loc t ty]) uid t > 5
          · rw [if_pos h2] at ha2
            rw [List.mem_singleton] at ha2
            subst ha2
            exact absurd haid.symm hne
          · rw [if_neg h2] at ha2
            simp at ha2
    · -- the new row
      rw [List.mem_singleton] at htxn
      subst htxn
      rw [hrowid]
      by_cases hflag : amount > 10000 ∨
          countWindow (db.transactions ++ [newRow tid uid amount loc t ty]) uid t > 5
      · rw [if_pos hflag]
        constructor
        · intro _
          rcases hflag with h1 | h2
          · refine ⟨⟨tid, uid, amount, highAmountReason amount⟩, ?_, rfl⟩
            apply List.mem_append.mpr (Or.inl _)
            apply List.mem_append.mpr (Or.inr _)
            rw [if_pos h1]
            simp
          · refine ⟨⟨tid, uid, amount, rapidReason (countWindow
              (db.transactions ++ [newRow tid uid amount loc t ty]) uid t)⟩, ?_, rfl⟩
            apply List.mem_append.mpr (Or.inr _)
            rw [if_pos h2]
            simp
        · intro _
          rfl
      · rw [if_neg hflag]
        constructor
        · intro hcontra
          exact absurd hcontra (by simp [newRow])
        · rintro ⟨a, ha, haid⟩
          exfalso
          rcases List.mem_append.mp ha with ha2 | ha2
          · rcases List.mem_append.mp ha2 with ha3 | ha3
            · exact halfresh a ha3 haid
            · rcases not_or.mp hflag with ⟨h1, _⟩
              rw [if_neg h1] at ha3
              simp at ha3
          · rcases not_or.mp hflag with ⟨_, h2⟩
            rw [if_neg h2] at ha2
            simp at ha2

/-- The store invariant is preserved by the delete route. -/
theorem delete_preserves (db : DB) (tid : String) (hInv : StoreInv db) :
    StoreInv (delete_transaction db tid) := by
  obtain ⟨href, hcons⟩ := hInv
  constructor
  · intro a ha
    simp only [delete_transaction, List.mem_filter] at ha
    obtain ⟨ha1, ha2⟩ := ha
    obtain ⟨tx, htx, hid⟩ := href a ha1
    refine ⟨tx, ?_, hid⟩
    simp only [delete_transaction, List.mem_filter]
    refine ⟨htx, ?_⟩
    rw [hid]
    exact ha2
  · intro tx htx
    simp only [delete_transaction, List.mem_filter] at htx
    obtain ⟨htx1, htx2⟩ := htx
    rw [hcons tx htx1]
    constructor
    · rintro ⟨a, ha, haid⟩
      refine ⟨a, ?_, haid⟩
      simp only [delete_transaction, List.mem_filter]
      refine ⟨ha, ?_⟩
      rw [haid]
      exact htx2
    · rintro ⟨a, ha, haid⟩
      simp only [delete_transaction, List.mem_filter] at ha
      exact ⟨a, ha.1, haid⟩

/-- One request preserves the invariant, provided an update targets an
existing id. -/
theorem applyOp_preserves (db : DB) (op : Op) (hInv : StoreInv db)
    (hok : opOk db op = true) : StoreInv (applyOp db op) := by
  cases op with
  | create tid uid amount loc t ty =>
      simp only [applyOp]
      cases hadd : add_transaction db tid uid amount loc t ty with
      | error e => exact hInv
      | ok db2 => exact add_preserves db db2 tid uid amount loc t ty hInv hadd
  | update tid uid amount loc t ty =>
      exact update_preserves db tid uid amount loc t ty hInv (by simpa [opOk] using hok)
  | delete tid => exact delete_preserves db tid hInv

/-- The invariant holds along any history whose updates all target existing
ids. -/
theorem goodRun_preserves (ops : List Op) : ∀ db : DB, StoreInv db →
    goodOps db ops = true → StoreInv (ops.foldl applyOp db) := by
  induction ops with
  | nil =>
      intro db h _
      exact h
  | cons op rest ih =>
      intro db hInv hgood
      simp only [goodOps, Bool.and_eq_true] at hgood
      exact ih (applyOp db op) (applyOp_preserves db op hInv hgood.1) hgood.2

theorem StoreInv_dbEmpty : StoreInv dbEmpty := by
  constructor
  · intro a ha
    simp [dbEmpty] at ha
  · intro tx htx
    simp [dbEmpty] at htx

theorem DB_ext (x y : DB) (h1 : x.transactions = y.transactions)
    (h2 : x.fraud_alerts = y.fraud_alerts) : x = y := by
  cases x
  cases y
  simp only at h1 h2
  rw [h1, h2]

/-- Re-running the UPDATE statement with the same values on the already
updated table writes the same rows. -/
theorem updatedTxns_update (db : DB) (tid uid : String) (amount : Int)
    (loc : String) (t : Int) (ty : TxnType) :
    updatedTxns (update_transaction db tid uid amount loc t ty) tid uid amount loc t ty
      = updatedTxns db tid uid amount loc t ty := by
  unfold updatedTxns
  rw [update_txns_as_map db tid uid amount loc t ty, List.map_map]
  apply List.map_congr_left
  intro tx _
  by_cases h : (tx.transaction_id == tid) = true
  · simp only [Function.comp_apply, if_pos h]
    by_cases hflag : amount > 10000 ∨
        countWindow (updatedTxns db tid uid amount loc t ty) uid t > 5
    · rw [if_pos hflag]
      simp [newRow]
    · rw [if_neg hflag]
      simp [newRow]
  · simp only [Function.comp_apply, if_neg h]

/-- Deleting the row's alerts after the update route removes exactly what the
route just wrote for that row. -/
theorem filter_ne_update_alerts (db : DB) (tid uid : String) (amount : Int)
    (loc : String) (t : Int) (ty : TxnType) :
    (update_transaction db tid uid amount loc t ty).fraud_alerts.filter
        (fun a => a.transaction_id != tid)
      = db.fraud_alerts.filter (fun a => a.transaction_id != tid) := by
  rw [update_transaction_alerts, List.filter_append, List.filter_append]
  have hF : ((db.fraud_alerts.filter fun a => a.transaction_id != tid).filter
      fun a => a.transaction_id != tid) = db.fraud_alerts.filter fun a => a.transaction_id != tid := by
    apply List.filter_eq_self.mpr
    intro a ha
    exact (List.mem_filter.mp ha).2
  rw [hF]
  by_cases h1 : amount > 10000 <;>
    by_cases h2 : countWindow (updatedTxns db tid uid amount loc t ty) uid t > 5 <;>
    simp [h1, h2]

/-- The velocity count after an insert includes the inserted row itself. -/
theorem countWindow_append_self (l : List Txn) (tid uid : String) (amount : Int)
    (loc : String) (t : Int) (ty : TxnType) :
    countWindow (l ++ [newRow tid uid amount loc t ty]) uid t = countWindow l uid t + 1 := by
  unfold countWindow
  rw [List.countP_append]
  have h : inWindow uid t (newRow tid uid amount loc t ty) = true := by
    simp [inWindow, newRow]
  simp [List.countP_cons, h]

/-- High-amount alerts referencing the created id after a successful create
into a store with no alert for that id. -/
theorem add_highAlertsFor (db db2 : DB) (tid uid : String) (amount : Int)
    (loc : String) (t : Int) (ty : TxnType)
    (hok : add_transaction db tid uid amount loc t ty = Except.ok db2)
    (hfresh : ∀ a ∈ db.fraud_alerts, a.transaction_id ≠ tid) :
    highAlertsFor db2 tid =
      if amount > 10000 then [⟨tid, uid, amount, highAmountReason amount⟩] else [] := by
  obtain ⟨hex, hdb2⟩ := add_transaction_ok_inv db db2 tid uid amount loc t ty hok
  have hals : db2.fraud_alerts = db.fraud_alerts
      ++ (if amount > 10000 then [⟨tid, uid, amount, highAmountReason amount⟩] else [])
      ++ (if countWindow (db.transactions ++ [newRow tid uid amount loc t ty]) uid t > 5
          then [⟨tid, uid, amount,
                 rapidReason (countWindow (db.transactions ++ [newRow tid uid amount loc t ty]) uid t)⟩]
          else []) := by
    rw [hdb2]
  unfold highAlertsFor
  rw [hals, List.filter_append, List.filter_append]
  have h0 : db.fraud_alerts.filter (fun a => a.transaction_id == tid && isHighAlert a) = [] := by
    apply List.filter_eq_nil_iff.mpr
    intro a ha
    simp [beq_eq_false_iff_ne.mpr (hfresh a ha)]
  rw [h0]
  by_cases h1 : amount > 10000 <;>
    by_cases h2 : countWindow (db.transactions ++ [newRow tid uid amount loc t ty]) uid t > 5 <;>
    simp [h1, h2, isHighAlert_highReason, isHighAlert_rapidReason]

/-- Velocity alerts referencing the created id after a successful create into
a store with no alert for that id. -/
theorem add_velocityAlertsFor (db db2 : DB) (tid uid : String) (amount : Int)
    (loc : String) (t : Int) (ty : TxnType)
    (hok : add_transaction db tid uid amount loc t ty = Except.ok db2)
    (hfresh : ∀ a ∈ db.fraud_alerts, a.transaction_id ≠ tid) :
    velocityAlertsFor db2 tid =
      if countWindow (db.transactions ++ [newRow tid uid amount loc t ty]) uid t > 5
      then [⟨tid, uid, amount,
             rapidReason (countWindow (db.transactions ++ [newRow tid uid amount loc t ty]) uid t)⟩]
      else [] := by
  obtain ⟨hex, hdb2⟩ := add_transaction_ok_inv db db2 tid uid amount loc t ty hok
  have hals : db2.fraud_alerts = db.fraud_alerts
      ++ (if amount > 10000 then [⟨tid, uid, amount, highAmountReason amount⟩] else [])
      ++ (if countWindow (db.transactions ++ [newRow tid uid amount loc t ty]) uid t > 5
          then [⟨tid, uid, amount,
                 rapidReason (countWindow (db.transactions ++ [newRow tid uid amount loc t ty]) uid t)⟩]
          else []) := by
    rw [hdb2]
  unfold velocityAlertsFor
  rw [hals, List.filter_append, List.filter_append]
  have h0 : db.fraud_alerts.filter (fun a => a.transaction_id == tid && isRapidAlert a) = [] := by
    apply List.filter_eq_nil_iff.mpr
    intro a ha
    simp [beq_eq_false_iff_ne.mpr (hfresh a ha)]
  rw [h0]
  by_cases h1 : amount > 10000 <;>
    by_cases h2 : countWindow (db.transactions ++ [newRow tid uid amount loc t ty]) uid t > 5 <;>
    simp [h1, h2, isRapidAlert_highReason, isRapidAlert_rapidReason]

/-- The created row's stored status is the derived one. -/
theorem txnStatus_add (db db2 : DB) (tid uid : String) (amount : Int)
    (loc : String) (t : Int) (ty : TxnType)
    (hok : add_transaction db tid uid amount loc t ty = Except.ok db2) :
    txnStatus db2 tid = some
      (if amount > 10000 ∨
            countWindow (db.transactions ++ [newRow tid uid amount loc t ty]) uid t > 5
       then Status.FLAGGED else Status.OK) := by
  obtain ⟨hex, hdb2⟩ := add_transaction_ok_inv db db2 tid uid amount loc t ty hok
  have hfresh : ∀ tx ∈ db.transactions, tx.transaction_id ≠ tid := by
    simpa [existsTid] using hex
  have htxs : db2.transactions =
      (if amount > 10000 ∨
            countWindow (db.transactions ++ [newRow tid uid amount loc t ty]) uid t > 5
       then setStatus tid Status.FLAGGED (db.transactions ++ [newRow tid uid amount loc t ty])
       else db.transactions ++ [newRow tid uid amount loc t ty]) := by
    rw [hdb2]
  rw [add_txns_form db tid uid amount loc t ty hfresh] at htxs
  unfold txnStatus
  rw [htxs]
  rw [find?_append_right _ db.transactions _
    (fun tx htx => beq_eq_false_iff_ne.mpr (hfresh tx htx))]
  by_cases hflag : amount > 10000 ∨
      countWindow (db.transactions ++ [newRow tid uid amount loc t ty]) uid t > 5
  · rw [if_pos hflag, if_pos hflag]
    rw [find?_cons_pos (fun tx : Txn => tx.transaction_id == tid) _ _ (by simp [newRow])]
    rfl
  · rw [if_neg hflag, if_neg hflag]
    rw [find?_cons_pos (fun tx : Txn => tx.transaction_id == tid) _ _ (by simp [newRow])]
    rfl

/-- Rows of the update route when the target id is absent: the UPDATE matches
nothing, so the transactions table is unchanged. -/
theorem update_transaction_absent (db : DB) (tid uid : String) (amount : Int)
    (loc : String) (t : Int) (ty : TxnType)
    (habs : ∀ tx ∈ db.transactions, tx.transaction_id ≠ tid) :
    (update_transaction db tid uid amount loc t ty).transactions = db.transactions := by
  rw [update_transaction_txns, updatedTxns_absent db tid uid amount loc t ty habs]
  by_cases hflag : amount > 10000 ∨ countWindow db.transactions uid t > 5
  · rw [if_pos hflag, setStatus_absent tid Status.FLAGGED db.transactions habs]
  · rw [if_neg hflag]

/-- The fresh FraudDetection store with one OK transaction, used as a concrete
input. -/
def dbC5 : DB := ⟨[⟨"TXN1", "U1", 5000, "Delhi", 0, TxnType.Credit, Status.OK⟩], []⟩

/-- C5: the claim says an update whose transaction_id is absent fails with
NotFoundError and changes nothing.  The POST branch of the update route has no
existence check (the GET branch does, app.py:192-194, showing the intent), so
the code runs to the success flash, leaves the transactions table unchanged,
and writes a dangling high-amount alert for the absent id. -/
theorem C5_missing_not_found_check :
    (update_transaction dbC5 "TXNMISSING" "U1" 12000 "Delhi" 1000 TxnType.Credit).transactions
        = dbC5.transactions
    ∧ alertsFor (update_transaction dbC5 "TXNMISSING" "U1" 12000 "Delhi" 1000 TxnType.Credit)
        "TXNMISSING" = [⟨"TXNMISSING", "U1", 12000, highAmountReason 12000⟩]
    ∧ existsTid (update_transaction dbC5 "TXNMISSING" "U1" 12000 "Delhi" 1000 TxnType.Credit)
        "TXNMISSING" = false := by
  refine ⟨?_, ?_, ?_⟩ <;> decide

/-- A store holding one flagged transaction and its high-amount alert,
exactly what a create with amount 12000 produces. -/
def dbC3 : DB :=
  ⟨[⟨"TXN1", "USER001", 12000, "Mumbai", 0, TxnType.Debit, Status.FLAGGED⟩],
   [⟨"TXN1", "USER001", 12000, highAmountReason 12000⟩]⟩

/-- C3: the claim says the update sequence is one all-or-nothing unit and
that a failure during alert persistence rolls the row mutation back.  The
route commits the row mutation first (app.py:144) and the alert phase only at
app.py:178, so a storage failure in the alert phase rolls back to a committed
state that already holds the mutated row (status 'OK') next to the stale
alert — not the pre-update state — and that intermediate state is observably
committed even on success. -/
theorem C3_update_not_atomic :
    update_alert_failure_state dbC3 "TXN1" "USER001" 500 "Mumbai" 0 TxnType.Debit ≠ dbC3
    ∧ (update_alert_failure_state dbC3 "TXN1" "USER001" 500 "Mumbai" 0 TxnType.Debit).transactions
        = [⟨"TXN1", "USER001", 500, "Mumbai", 0, TxnType.Debit, Status.OK⟩]
    ∧ (update_alert_failure_state dbC3 "TXN1" "USER001" 500 "Mumbai" 0 TxnType.Debit).fraud_alerts
        = dbC3.fraud_alerts
    ∧ update_commit1 dbC3 "TXN1" "USER001" 500 "Mumbai" 0 TxnType.Debit
        ≠ update_transaction dbC3 "TXN1" "USER001" 500 "Mumbai" 0 TxnType.Debit := by
  refine ⟨?_, ?_, ?_, ?_⟩ <;> decide

/-- C6: a create whose transaction_id already exists fails with the duplicate
error and the store is unchanged. -/
theorem C6_duplicate_create_rejected (db : DB) (tid uid : String) (amount : Int)
    (loc : String) (t : Int) (ty : TxnType) (hex : existsTid db tid = true) :
    add_transaction db tid uid amount loc t ty
        = Except.error CreateError.DuplicateTransaction
    ∧ applyOp db (Op.create tid uid amount loc t ty) = db := by
  have h := add_transaction_dup db tid uid amount loc t ty hex
  refine ⟨h, ?_⟩
  simp only [applyOp, h]

def dbC6 : DB := ⟨[⟨"TXN1", "U1", 5000, "Delhi", 0, TxnType.Credit, Status.OK⟩], []⟩

theorem C6_duplicate_create_rejected_witness :
    add_transaction dbC6 "TXN1" "U9" 700 "Agra" 50 TxnType.Debit
        = Except.error CreateError.DuplicateTransaction
    ∧ applyOp dbC6 (Op.create "TXN1" "U9" 700 "Agra" 50 TxnType.Debit) = dbC6 :=
  C6_duplicate_create_rejected dbC6 "TXN1" "U9" 700 "Agra" 50 TxnType.Debit (by decide)

/-- The store produced by updating an absent id with amount 12000 starting
from the fresh store: it holds a dangling high-amount alert and no
transaction. -/
def dbC7 : DB := update_transaction dbEmpty "TXNX" "U1" 12000 "Delhi" 0 TxnType.Credit

/-- C7 counterexample: deleting an id that does not exist is not always a
no-op — in a store holding a dangling alert for that id (reachable by
updating an absent id), the delete removes the dangling alert. -/
theorem C7_delete_noop_counterexample :
    existsTid dbC7 "TXNX" = false ∧ delete_transaction dbC7 "TXNX" ≠ dbC7 := by
  refine ⟨?_, ?_⟩ <;> decide

/-- C7 (amended): the delete route removes every alert referencing the id and
the transaction itself, succeeds on an absent id leaving the transactions
table unchanged, and is a full no-op on an absent id exactly when no
(dangling) alert references that id. -/
theorem C7_delete_cascade_amended (db : DB) (tid : String) :
    alertsFor (delete_transaction db tid) tid = []
    ∧ existsTid (delete_transaction db tid) tid = false
    ∧ ((∀ tx ∈ db.transactions, tx.transaction_id ≠ tid) →
        (delete_transaction db tid).transactions = db.transactions)
    ∧ ((∀ tx ∈ db.transactions, tx.transaction_id ≠ tid) →
        alertsFor db tid = [] → delete_transaction db tid = db) := by
  refine ⟨?_, ?_, ?_, ?_⟩
  · exact filter_ne_then_beq db.fraud_alerts tid
  · simp only [existsTid, delete_transaction]
    rw [List.any_eq_false]
    intro tx htx
    rw [List.mem_filter] at htx
    simpa using htx.2
  · intro h
    simp only [delete_transaction]
    apply List.filter_eq_self.mpr
    intro tx htx
    exact bne_iff_ne.mpr (h tx htx)
  · intro h1 h2
    apply DB_ext
    · simp only [delete_transaction]
      apply List.filter_eq_self.mpr
      intro tx htx
      exact bne_iff_ne.mpr (h1 tx htx)
    · simp only [delete_transaction]
      apply List.filter_eq_self.mpr
      intro a ha
      apply bne_iff_ne.mpr
      intro hcontra
      have := List.filter_eq_nil_iff.mp h2 a ha
      rw [hcontra] at this
      simp at this

def dbC7w : DB :=
  ⟨[⟨"TXN9", "U3", 12000, "Pune", 5, TxnType.Credit, Status.FLAGGED⟩],
   [⟨"TXN9", "U3", 12000, highAmountReason 12000⟩]⟩

theorem C7_delete_cascade_amended_witness :
    alertsFor (delete_transaction dbC7w "TXNZ") "TXNZ" = []
    ∧ existsTid (delete_transaction dbC7w "TXNZ") "TXNZ" = false
    ∧ (delete_transaction dbC7w "TXNZ").transactions = dbC7w.transactions
    ∧ delete_transaction dbC7w "TXNZ" = dbC7w := by
  have h := C7_delete_cascade_amended dbC7w "TXNZ"
  exact ⟨h.1, h.2.1, h.2.2.1 (by decide), h.2.2.2 (by decide) (by decide)⟩

/-- C4 counterexample: updating an absent id writes a dangling alert; a later
create of that same id then stores an OK transaction that has an alert
referencing it, breaking the claimed status-alert equivalence. -/
theorem C4_status_consistency_counterexample :
    ¬ statusConsistent (run [Op.update "TXNX" "U1" 12000 "Delhi" 1000 TxnType.Credit,
                             Op.create "TXNX" "U1" 500 "Delhi" 2000 TxnType.Credit]) := by
  decide

/-- C4 (amended): after any request history from the fresh store in which
every update targets an id existing at that moment, each stored transaction
is FLAGGED exactly when at least one alert references it, and OK otherwise. -/
theorem C4_status_consistency_amended (ops : List Op)
    (hgood : goodOps dbEmpty ops = true) : statusConsistent (run ops) :=
  (goodRun_preserves ops dbEmpty StoreInv_dbEmpty hgood).2

def opsC4 : List Op :=
  [Op.create "TXN1" "U1" 12000 "Delhi" 0 TxnType.Credit,
   Op.update "TXN1" "U1" 500 "Delhi" 60 TxnType.Credit,
   Op.delete "TXN1"]

theorem C4_status_consistency_amended_witness :
    goodOps dbEmpty opsC4 = true ∧ statusConsistent (run opsC4) :=
  ⟨by decide, C4_status_consistency_amended opsC4 (by decide)⟩

/-- C1 counterexample: the single alert produced for an insert with amount
12000 has reason "High amount transaction: ₹12000.0 exceeds ₹10,000 limit" —
it contains the amount "12000" but not the substring "10000", because the
source renders the threshold with a thousands separator. -/
theorem C1_threshold_text_counterexample :
    add_transaction dbEmpty "TXN001" "USER001" 12000 "Delhi" 0 TxnType.Credit =
      Except.ok ⟨[⟨"TXN001", "USER001", 12000, "Delhi", 0, TxnType.Credit, Status.FLAGGED⟩],
                 [⟨"TXN001", "USER001", 12000, highAmountReason 12000⟩]⟩
    ∧ strContains (highAmountReason 12000) "10000" = false
    ∧ strContains (highAmountReason 12000) "12000" = true := by
  refine ⟨rfl, ?_, ?_⟩ <;> decide

/-- C1 (amended): for every transaction processed by create (into a store
with no alert already referencing its id) or by update, a high-amount alert
for it exists after the operation iff amount > 10000, exactly one such alert
is produced, its reason contains the rendered amount and the threshold as
rendered by the source, "10,000", and the transaction's status is FLAGGED
when the rule fires. -/
theorem C1_high_amount_rule_amended
    (db db2 : DB) (tid uid loc : String) (amount : Int) (t : Int) (ty : TxnType)
    (hfresh : ∀ a ∈ db.fraud_alerts, a.transaction_id ≠ tid)
    (hok : add_transaction db tid uid amount loc t ty = Except.ok db2)
    (dbu : DB) (tidu uidu locu : String) (amountu : Int) (tu : Int) (tyu : TxnType)
    (hexu : existsTid dbu tidu = true) :
    highAlertsFor db2 tid =
      (if amount > 10000 then [⟨tid, uid, amount, highAmountReason amount⟩] else [])
    ∧ (amount > 10000 → txnStatus db2 tid = some Status.FLAGGED)
    ∧ highAlertsFor (update_transaction dbu tidu uidu amountu locu tu tyu) tidu =
        (if amountu > 10000 then [⟨tidu, uidu, amountu, highAmountReason amountu⟩] else [])
    ∧ (amountu > 10000 →
        txnStatus (update_transaction dbu tidu uidu amountu locu tu tyu) tidu
          = some Status.FLAGGED)
    ∧ strContains (highAmountReason amount) (amountStr amount) = true
    ∧ strContains (highAmountReason amount) "10,000" = true := by
  refine ⟨add_highAlertsFor db db2 tid uid amount loc t ty hok hfresh, ?_,
    update_highAlertsFor dbu tidu uidu amountu locu tu tyu, ?_,
    highAmountReason_contains_amount amount, highAmountReason_contains_limit amount⟩
  · intro h1
    rw [txnStatus_add db db2 tid uid amount loc t ty hok, if_pos (Or.inl h1)]
  · intro h1
    exact txnStatus_update_flagged dbu tidu uidu amountu locu tu tyu hexu (Or.inl h1)

/-- The store produced by inserting TXN001 with amount 12000 into the fresh
store: one flagged row and its single high-amount alert. -/
def dbC1 : DB :=
  ⟨[⟨"TXN001", "USER001", 12000, "Delhi", 0, TxnType.Credit, Status.FLAGGED⟩],
   [⟨"TXN001", "USER001", 12000, highAmountReason 12000⟩]⟩

theorem C1_high_amount_rule_amended_witness :
    highAlertsFor dbC1 "TXN001" = [⟨"TXN001", "USER001", 12000, highAmountReason 12000⟩]
    ∧ txnStatus dbC1 "TXN001" = some Status.FLAGGED
    ∧ highAlertsFor (update_transaction dbC1 "TXN001" "USER001" 12000 "Delhi" 0 TxnType.Credit)
        "TXN001" = [⟨"TXN001", "USER001", 12000, highAmountReason 12000⟩]
    ∧ txnStatus (update_transaction dbC1 "TXN001" "USER001" 12000 "Delhi" 0 TxnType.Credit)
        "TXN001" = some Status.FLAGGED
    ∧ strContains (highAmountReason 12000) (amountStr 12000) = true
    ∧ strContains (highAmountReason 12000) "10,000" = true := by
  have h := C1_high_amount_rule_amended dbEmpty dbC1 "TXN001" "USER001" "Delhi" 12000 0
    TxnType.Credit (by decide) (by rfl) dbC1 "TXN001" "USER001" "Delhi" 12000 0
    TxnType.Credit (by decide)
  refine ⟨h.1.trans (by decide), h.2.1 (by decide), h.2.2.1.trans (by decide),
    h.2.2.2.1 (by decide), h.2.2.2.2.1, h.2.2.2.2.2⟩

/-- C2: a velocity alert is produced by create / update exactly when the
count of the user's transactions in the inclusive window [t - 5 min, t] over
the post-mutation table (which includes the transaction itself) exceeds 5;
the reason contains that count; only the inserted / updated id receives a new
alert. -/
theorem C2_velocity_rule
    (db db2 : DB) (tid uid loc : String) (amount : Int) (t : Int) (ty : TxnType)
    (hfresh : ∀ a ∈ db.fraud_alerts, a.transaction_id ≠ tid)
    (hok : add_transaction db tid uid amount loc t ty = Except.ok db2)
    (dbu : DB) (tidu uidu locu : String) (amountu : Int) (tu : Int) (tyu : TxnType) :
    velocityAlertsFor db2 tid =
      (if countWindow (db.transactions ++ [newRow tid uid amount loc t ty]) uid t > 5
       then [⟨tid, uid, amount,
              rapidReason (countWindow (db.transactions ++ [newRow tid uid amount loc t ty]) uid t)⟩]
       else [])
    ∧ countWindow (db.transactions ++ [newRow tid uid amount loc t ty]) uid t
        = countWindow db.transactions uid t + 1
    ∧ velocityAlertsFor (update_transaction dbu tidu uidu amountu locu tu tyu) tidu =
        (if countWindow (updatedTxns dbu tidu uidu amountu locu tu tyu) uidu tu > 5
         then [⟨tidu, uidu, amountu,
                rapidReason (countWindow (updatedTxns dbu tidu uidu amountu locu tu tyu) uidu tu)⟩]
         else [])
    ∧ (∀ a ∈ (update_transaction dbu tidu uidu amountu locu tu tyu).fraud_alerts,
        a ∈ dbu.fraud_alerts ∨ a.transaction_id = tidu)
    ∧ (∀ a ∈ db2.fraud_alerts, a ∈ db.fraud_alerts ∨ a.transaction_id = tid)
    ∧ strContains
        (rapidReason (countWindow (db.transactions ++ [newRow tid uid amount loc t ty]) uid t))
        (toString (countWindow (db.transactions ++ [newRow tid uid amount loc t ty]) uid t))
        = true := by
  refine ⟨add_velocityAlertsFor db db2 tid uid amount loc t ty hok hfresh,
    countWindow_append_self db.transactions tid uid amount loc t ty,
    update_velocityAlertsFor dbu tidu uidu amountu locu tu tyu, ?_, ?_,
    rapidReason_contains_count _⟩
  · intro a ha
    rw [update_transaction_alerts] at ha
    rcases List.mem_append.mp ha with h2 | h2
    · rcases List.mem_append.mp h2 with h3 | h3
      · exact Or.inl (List.mem_filter.mp h3).1
      · right
        by_cases hb : amountu > 10000
        · rw [if_pos hb] at h3
          rw [List.mem_singleton] at h3
          subst h3
          rfl
        · rw [if_neg hb] at h3
          simp at h3
    · right
      by_cases hb : countWindow (updatedTxns dbu tidu uidu amountu locu tu tyu) uidu tu > 5
      · rw [if_pos hb] at h2
        rw [List.mem_singleton] at h2
        subst h2
        rfl
      · rw [if_neg hb] at h2
        simp at h2
  · intro a ha
    obtain ⟨hex, hdb2⟩ := add_transaction_ok_inv db db2 tid uid amount loc t ty hok
    have hals : db2.fraud_alerts = db.fraud_alerts
        ++ (if amount > 10000 then [⟨tid, uid, amount, highAmountReason amount⟩] else [])
        ++ (if countWindow (db.transactions ++ [newRow tid uid amount loc t ty]) uid t > 5
            then [⟨tid, uid, amount,
                   rapidReason (countWindow (db.transactions ++ [newRow tid uid amount loc t ty]) uid t)⟩]
            else []) := by
      rw [hdb2]
    rw [hals] at ha
    rcases List.mem_append.mp ha with h2 | h2
    · rcases List.mem_append.mp h2 with h3 | h3
      · exact Or.inl h3
      · right
        by_cases hb : amount > 10000
        · rw [if_pos hb] at h3
          rw [List.mem_singleton] at h3
          subst h3
          rfl
        · rw [if_neg hb] at h3
          simp at h3
    · right
      by_cases hb : countWindow (db.transactions ++ [newRow tid uid amount loc t ty]) uid t > 5
      · rw [if_pos hb] at h2
        rw [List.mem_singleton] at h2
        subst h2
        rfl
      · rw [if_neg hb] at h2
        simp at h2

/-- Five transactions of USER001 within a four-minute span (scenario B's
prefix), none flagged. -/
def dbB : DB :=
  ⟨[⟨"TXN1", "USER001", 800, "Delhi", 0, TxnType.Credit, Status.OK⟩,
    ⟨"TXN2", "USER001", 900, "Delhi", 60, TxnType.Debit, Status.OK⟩,
    ⟨"TXN3", "USER001", 700, "Delhi", 120, TxnType.Credit, Status.OK⟩,
    ⟨"TXN4", "USER001", 600, "Delhi", 180, TxnType.Debit, Status.OK⟩,
    ⟨"TXN5", "USER001", 500, "Delhi", 240, TxnType.Credit, Status.OK⟩], []⟩

/-- The store after the 6th insert of scenario B: the new row is flagged and
carries the single velocity alert with count 6. -/
def dbC2 : DB :=
  ⟨[⟨"TXN1", "USER001", 800, "Delhi", 0, TxnType.Credit, Status.OK⟩,
    ⟨"TXN2", "USER001", 900, "Delhi", 60, TxnType.Debit, Status.OK⟩,
    ⟨"TXN3", "USER001", 700, "Delhi", 120, TxnType.Credit, Status.OK⟩,
    ⟨"TXN4", "USER001", 600, "Delhi", 180, TxnType.Debit, Status.OK⟩,
    ⟨"TXN5", "USER001", 500, "Delhi", 240, TxnType.Credit, Status.OK⟩,
    ⟨"TXN6", "USER001", 1000, "Delhi", 240, TxnType.Credit, Status.FLAGGED⟩],
   [⟨"TXN6", "USER001", 1000, rapidReason 6⟩]⟩

theorem C2_velocity_rule_witness :
    velocityAlertsFor dbC2 "TXN6" = [⟨"TXN6", "USER001", 1000, rapidReason 6⟩]
    ∧ countWindow (dbB.transactions ++ [newRow "TXN6" "USER001" 1000 "Delhi" 240 TxnType.Credit])
        "USER001" 240 = countWindow dbB.transactions "USER001" 240 + 1
    ∧ velocityAlertsFor
        (update_transaction dbC2 "TXN6" "USER001" 500 "Delhi" 240 TxnType.Credit) "TXN6"
        = [⟨"TXN6", "USER001", 500, rapidReason 6⟩]
    ∧ (∀ a ∈ (update_transaction dbC2 "TXN6" "USER001" 500 "Delhi" 240 TxnType.Credit).fraud_alerts,
        a ∈ dbC2.fraud_alerts ∨ a.transaction_id = "TXN6")
    ∧ (∀ a ∈ dbC2.fraud_alerts, a ∈ dbB.fraud_alerts ∨ a.transaction_id = "TXN6")
    ∧ strContains (rapidReason 6) (toString 6) = true := by
  have h := C2_velocity_rule dbB dbC2 "TXN6" "USER001" "Delhi" 1000 240 TxnType.Credit
    (by decide) (by rfl) dbC2 "TXN6" "USER001" "Delhi" 500 240 TxnType.Credit
  refine ⟨h.1.trans (by decide), h.2.1, h.2.2.1.trans (by decide), h.2.2.2.1, h.2.2.2.2.1,
    ?_⟩
  have h6 := h.2.2.2.2.2
  have hc : countWindow (dbB.transactions ++ [newRow "TXN6" "USER001" 1000 "Delhi" 240
      TxnType.Credit]) "USER001" 240 = 6 := by decide
  rw [hc] at h6
  exact h6

/-- C8: re-running the update route with the same field values against the
unchanged store is idempotent — the second run rewrites the same row, deletes
exactly the alerts the first run wrote and writes them again, producing the
identical store — and one run writes at most one alert per rule for the id. -/
theorem C8_reevaluation_idempotent (db : DB) (tid uid : String) (amount : Int)
    (loc : String) (t : Int) (ty : TxnType) :
    update_transaction (update_transaction db tid uid amount loc t ty) tid uid amount loc t ty
      = update_transaction db tid uid amount loc t ty
    ∧ (highAlertsFor (update_transaction db tid uid amount loc t ty) tid).length ≤ 1
    ∧ (velocityAlertsFor (update_transaction db tid uid amount loc t ty) tid).length ≤ 1 := by
  refine ⟨?_, ?_, ?_⟩
  · apply DB_ext
    · rw [update_transaction_txns (update_transaction db tid uid amount loc t ty)
        tid uid amount loc t ty, updatedTxns_update,
        ← update_transaction_txns db tid uid amount loc t ty]
    · rw [update_transaction_alerts (update_transaction db tid uid amount loc t ty)
        tid uid amount loc t ty, updatedTxns_update, filter_ne_update_alerts,
        ← update_transaction_alerts db tid uid amount loc t ty]
  · rw [update_highAlertsFor]
    by_cases h1 : amount > 10000
    · rw [if_pos h1]
      simp
    · rw [if_neg h1]
      simp
  · rw [update_velocityAlertsFor]
    by_cases h2 : countWindow (updatedTxns db tid uid amount loc t ty) uid t > 5
    · rw [if_pos h2]
      simp
    · rw [if_neg h2]
      simp

/-- C9: updating an existing transaction to values breaching no rule
(amount at most 10000, window count at most 5) empties its alert set and
stores status OK. -/
theorem C9_update_clears_alerts (db : DB) (tid uid : String) (amount : Int)
    (loc : String) (t : Int) (ty : TxnType)
    (hex : existsTid db tid = true)
    (hamt : amount ≤ 10000)
    (hcnt : countWindow (updatedTxns db tid uid amount loc t ty) uid t ≤ 5) :
    alertsFor (update_transaction db tid uid amount loc t ty) tid = []
    ∧ txnStatus (update_transaction db tid uid amount loc t ty) tid = some Status.OK := by
  have h1 : ¬ amount > 10000 := not_lt.mpr hamt
  have h2 : ¬ countWindow (updatedTxns db tid uid amount loc t ty) uid t > 5 :=
    not_lt.mpr hcnt
  constructor
  · rw [update_alertsFor, if_neg h1, if_neg h2]
    rfl
  · exact txnStatus_update_ok db tid uid amount loc t ty hex (not_or.mpr ⟨h1, h2⟩)

theorem C9_update_clears_alerts_witness :
    alertsFor (update_transaction dbC3 "TXN1" "USER001" 500 "Mumbai" 0 TxnType.Debit) "TXN1" = []
    ∧ txnStatus (update_transaction dbC3 "TXN1" "USER001" 500 "Mumbai" 0 TxnType.Debit) "TXN1"
        = some Status.OK :=
  C9_update_clears_alerts dbC3 "TXN1" "USER001" 500 "Mumbai" 0 TxnType.Debit
    (by decide) (by decide) (by decide)

/-- C10: an update whose transaction_id is absent but whose fields pass
validation completes without error, leaves the transactions table (hence
every status) unchanged, and inserts a dangling alert for the absent id
whenever the submitted amount exceeds 10000 or the submitted user's window
count exceeds 5. -/
theorem C10_dangling_alert_on_absent_update (db : DB) (tid uid : String)
    (amount : Int) (loc : String) (t : Int) (ty : TxnType)
    (habs : ∀ tx ∈ db.transactions, tx.transaction_id ≠ tid) :
    (update_transaction db tid uid amount loc t ty).transactions = db.transactions
    ∧ (amount > 10000 →
        (⟨tid, uid, amount, highAmountReason amount⟩ : Alert) ∈
          (update_transaction db tid uid amount loc t ty).fraud_alerts)
    ∧ (countWindow db.transactions uid t > 5 →
        (⟨tid, uid, amount, rapidReason (countWindow db.transactions uid t)⟩ : Alert) ∈
          (update_transaction db tid uid amount loc t ty).fraud_alerts)
    ∧ (∀ tx ∈ (update_transaction db tid uid amount loc t ty).transactions,
        tx.transaction_id ≠ tid) := by
  have htxs := update_transaction_absent db tid uid amount loc t ty habs
  have hcw : countWindow (updatedTxns db tid uid amount loc t ty) uid t
      = countWindow db.transactions uid t := by
    rw [updatedTxns_absent db tid uid amount loc t ty habs]
  refine ⟨htxs, ?_, ?_, ?_⟩
  · intro h1
    rw [update_transaction_alerts]
    apply List.mem_append.mpr (Or.inl _)
    apply List.mem_append.mpr (Or.inr _)
    rw [if_pos h1]
    simp
  · intro h2
    rw [update_transaction_alerts, hcw]
    apply List.mem_append.mpr (Or.inr _)
    rw [if_pos h2]
    simp
  · intro tx htx
    rw [htxs] at htx
    exact habs tx htx

/-- Six transactions of user U2 inside one five-minute window, so an absent
update for U2 anchored at time 1000 sees a window count over 5. -/
def dbC10 : DB :=
  ⟨[⟨"TA", "U2", 100, "Delhi", 750, TxnType.Credit, Status.OK⟩,
    ⟨"TB", "U2", 100, "Delhi", 800, TxnType.Credit, Status.OK⟩,
    ⟨"TC", "U2", 100, "Delhi", 850, TxnType.Credit, Status.OK⟩,
    ⟨"TD", "U2", 100, "Delhi", 900, TxnType.Credit, Status.OK⟩,
    ⟨"TE", "U2", 100, "Delhi", 950, TxnType.Credit, Status.OK⟩,
    ⟨"TF", "U2", 100, "Delhi", 1000, TxnType.Credit, Status.OK⟩], []⟩

theorem C10_dangling_alert_on_absent_update_witness :
    (update_transaction dbC10 "TXNGHOST" "U2" 12000 "Delhi" 1000 TxnType.Credit).transactions
        = dbC10.transactions
    ∧ (⟨"TXNGHOST", "U2", 12000, highAmountReason 12000⟩ : Alert) ∈
        (update_transaction dbC10 "TXNGHOST" "U2" 12000 "Delhi" 1000 TxnType.Credit).fraud_alerts
    ∧ (⟨"TXNGHOST", "U2", 12000, rapidReason (countWindow dbC10.transactions "U2" 1000)⟩ : Alert) ∈
        (update_transaction dbC10 "TXNGHOST" "U2" 12000 "Delhi" 1000 TxnType.Credit).fraud_alerts
    ∧ (∀ tx ∈ (update_transaction dbC10 "TXNGHOST" "U2" 12000 "Delhi" 1000 TxnType.Credit).transactions,
        tx.transaction_id ≠ "TXNGHOST") := by
  have h := C10_dangling_alert_on_absent_update dbC10 "TXNGHOST" "U2" 12000 "Delhi" 1000
    TxnType.Credit (by decide)
  exact ⟨h.1, h.2.1 (by decide), h.2.2.1 (by decide), h.2.2.2⟩
